import Mathlib

/-
Shallow embedding of the futu-openapi wrapper scripts
(config/settings.py, scripts/futu_client.py, scripts/market_data.py,
scripts/trading.py).

Modelling conventions:
* Every call into the external trading daemon returns a status code and a
  payload.  A `Resp` carries the status code `ret`, the human-readable
  message `msg` used when `ret` is non-zero, and the tabular payload `df`
  used when `ret` is zero (section 6 of the design notes: non-zero code
  means the payload is an error string, zero means it is a table).
* The daemon itself is an oracle: each operation takes a function from its
  request record to a `Resp`, so the request actually sent is the argument
  of that function.
* pandas DataFrames are modelled as a column list plus a list of cell
  rows; `to_dict("records")` zips every row with the column names.
* A raised Python exception is an `Except.error` carrying a `FutuError`;
  the constructor encodes the error taxonomy and the string is the full
  message built at the raise site, which embeds the daemon message.
* Mutation of `self` is modelled by returning the updated state.
-/

namespace Futu

/-! ## config/settings.py -/

def FUTU_HOST : String := "127.0.0.1"

def FUTU_PORT : Nat := 11111

def TRADING_ENV : String := "SIMULATE"

def DEFAULT_MARKET : String := "HK"

/-- `UNLOCK_PASSWORD` as shipped in config/settings.py.  The file is
user-edited configuration, so functions reading it take the configured
value as a parameter; this constant is the shipped default. -/
def UNLOCK_PASSWORD : Option String := none

/-- `TRADING_ACCOUNT_ID` as shipped in config/settings.py (see
`UNLOCK_PASSWORD` for the convention). -/
def TRADING_ACCOUNT_ID : Option String := none

/-- Python truthiness of an optional string (`None` and `""` are falsy). -/
def truthy : Option String → Bool
  | none => false
  | some s => !s.isEmpty

/-! ## Tabular payloads (pandas DataFrame fragment used by the scripts) -/

/-- Cell values are kept as strings; the scripts never compute on them,
they only compare and forward them. -/
abbrev Val := String

/-- One record produced by `to_dict("records")`: an ordered key-value
mapping. -/
abbrev Row := List (String × Val)

structure DataFrame where
  columns : List String
  cells : List (List Val)
deriving DecidableEq

/-- pandas `df.empty`: true when either axis has length zero. -/
def DataFrame.empty (df : DataFrame) : Bool :=
  df.cells.isEmpty || df.columns.isEmpty

/-- pandas `df.to_dict("records")`. -/
def DataFrame.to_dict_records (df : DataFrame) : List Row :=
  df.cells.map fun r => df.columns.zip r

/-- The ubiquitous `data.to_dict("records") if not data.empty else []`. -/
def records_or_empty (df : DataFrame) : List Row :=
  if df.empty then [] else df.to_dict_records

/-- pandas `df.iloc[0]` as an optional record. -/
def DataFrame.iloc0 (df : DataFrame) : Option Row :=
  df.cells.head?.map fun r => df.columns.zip r

/-- pandas `df.iloc[0][key]`; `none` corresponds to a raised
IndexError/KeyError at the call site. -/
def DataFrame.iloc0_get (df : DataFrame) (key : String) : Option Val :=
  df.cells.head?.bind fun r => (df.columns.zip r).lookup key

/-- The daemon reply `(code, payload)`: `msg` is the payload read as an
error string (used when `ret` is non-zero), `df` the payload read as a
table (used when `ret` is zero). -/
structure Resp where
  ret : Int
  msg : String
  df : DataFrame
deriving DecidableEq

/-! ## Error taxonomy -/

/-- The error taxonomy of the wrappers.  The scripts raise plain Python
exceptions whose messages start with a fixed per-operation text; the
constructor records which taxonomy class that raise site belongs to and
the string is the complete raised message.  `keyError` stands for a
Python KeyError escaping from a payload lookup. -/
inductive FutuError where
  | connection (msg : String)
  | authorization (msg : String)
  | marketData (msg : String)
  | order (msg : String)
  | account (msg : String)
  | keyError (key : String)
deriving DecidableEq

/-- Python `str(e)` for a caught exception. -/
def FutuError.str : FutuError → String
  | .connection s => s
  | .authorization s => s
  | .marketData s => s
  | .order s => s
  | .account s => s
  | .keyError k => "'" ++ k ++ "'"

/-! ## Vendor SDK enumerations (futu module) -/

inductive TrdEnv where
  | SIMULATE
  | REAL
deriving DecidableEq

inductive TrdSide where
  | BUY
  | SELL
deriving DecidableEq

inductive OrderType where
  | NORMAL
  | MARKET
deriving DecidableEq

inductive OrderStatus where
  | SUBMITTED
  | WAITING_SUBMIT
  | FILLED_ALL
  | FILLED_PART
deriving DecidableEq

inductive SubType where
  | QUOTE
  | ORDER_BOOK
  | TICKER
deriving DecidableEq

inductive KLType where
  | K_1M
  | K_5M
  | K_15M
  | K_30M
  | K_60M
  | K_DAY
  | K_WEEK
  | K_MON
  | K_YEAR
deriving DecidableEq

/-! ## scripts/futu_client.py (Session Provider) -/

/-- An `OpenQuoteContext` handle. -/
structure QuoteCtx where
  host : String
  port : Nat
deriving DecidableEq

/-- An `OpenSecTradeContext` handle.  `unlocked` models the daemon-side
session state established by a successful `unlock_trade` call. -/
structure TradeCtx where
  host : String
  port : Nat
  market : String
  trd_env : TrdEnv
  unlocked : Bool
deriving DecidableEq

/-- `FutuClient` state: connection settings plus the two lazily created
context handles. -/
structure FutuClient where
  host : String
  port : Nat
  trading_env : String
  quote_ctx : Option QuoteCtx
  trade_ctx : Option TradeCtx
deriving DecidableEq

/-- `FutuClient.__init__`: `host or FUTU_HOST` falls back on falsy
values, likewise for port and trading_env. -/
def FutuClient.init (host : Option String) (port : Option Nat) (trading_env : Option String) :
    FutuClient :=
  { host := match host with
      | some h => if h.isEmpty then FUTU_HOST else h
      | none => FUTU_HOST
    port := match port with
      | some p => if p = 0 then FUTU_PORT else p
      | none => FUTU_PORT
    trading_env := match trading_env with
      | some e => if e.isEmpty then TRADING_ENV else e
      | none => TRADING_ENV
    quote_ctx := none
    trade_ctx := none }

/-- `FutuClient.get_quote_ctx`: return the cached quote context or create
one from the configured host and port. -/
def FutuClient.get_quote_ctx (c : FutuClient) : QuoteCtx × FutuClient :=
  match c.quote_ctx with
  | some ctx => (ctx, c)
  | none =>
    let ctx : QuoteCtx := { host := c.host, port := c.port }
    (ctx, { c with quote_ctx := some ctx })

/-- `FutuClient.get_trade_ctx`: return the cached trade context, or create
one scoped to `market` and the configured environment.  `unlock_password`
is the UNLOCK_PASSWORD configuration value and `unlock_resp` the daemon
reply to `unlock_trade` (consulted only when an unlock is attempted).
Faithful to the source, the freshly created context is stored in the
client state before the unlock attempt, so the stored handle survives an
unlock failure. -/
def FutuClient.get_trade_ctx (c : FutuClient) (unlock_password : Option String)
    (unlock_resp : Resp) (market : String) : Except FutuError TradeCtx × FutuClient :=
  match c.trade_ctx with
  | some ctx => (.ok ctx, c)
  | none =>
    let trd_env := if c.trading_env = "SIMULATE" then TrdEnv.SIMULATE else TrdEnv.REAL
    let ctx : TradeCtx :=
      { host := c.host, port := c.port, market := market, trd_env := trd_env, unlocked := false }
    if truthy unlock_password = true ∧ c.trading_env = "REAL" then
      if unlock_resp.ret ≠ 0 then
        (.error (.authorization ("Failed to unlock trading: " ++ unlock_resp.msg)),
         { c with trade_ctx := some ctx })
      else
        let ctx2 := { ctx with unlocked := true }
        (.ok ctx2, { c with trade_ctx := some ctx2 })
    else
      (.ok ctx, { c with trade_ctx := some ctx })

/-- `FutuClient.close`: close each present context and set both fields to
`None`.  The first component lists which handles were actually released,
so that a repeated close visibly releases nothing. -/
def FutuClient.close (c : FutuClient) : List String × FutuClient :=
  ((if c.quote_ctx.isSome then ["quote"] else []) ++
     (if c.trade_ctx.isSome then ["trade"] else []),
   { c with quote_ctx := none, trade_ctx := none })

/-! ## scripts/market_data.py (Market Data Facade)

The facade caches the quote context it obtains from the client
(`MarketData._get_quote_ctx`); the context carries no data the daemon
call depends on, so the operations below take the daemon oracle of their
single call directly and the context acquisition is modelled once at the
provider (`FutuClient.get_quote_ctx`).  A code argument that may be a
bare string or a list of strings is a `Codes`, and the
`isinstance(codes, str)` promotion is `normalizeCodes`. -/

/-- A "stock code or list of codes" argument. -/
inductive Codes where
  | single (code : String)
  | many (codes : List String)
deriving DecidableEq

/-- `if isinstance(codes, str): codes = [codes]`. -/
def normalizeCodes : Codes → List String
  | .single code => [code]
  | .many codes => codes

namespace MarketData

/-- Arguments of `ctx.subscribe` / `ctx.unsubscribe`. -/
structure SubscribeRequest where
  codes : List String
  sub_types : List SubType
deriving DecidableEq

/-- The request built by `MarketData.subscribe` and
`MarketData.unsubscribe`: codes normalized, `sub_types` defaulted to
`[SubType.QUOTE]` when `None`. -/
def subscribe_request (codes : Codes) (sub_types : Option (List SubType)) : SubscribeRequest :=
  { codes := normalizeCodes codes
    sub_types := match sub_types with
      | none => [SubType.QUOTE]
      | some ts => ts }

/-- The dict `{"status": ..., "codes": codes}` returned on success. -/
structure SubResult where
  status : String
  codes : List String
deriving DecidableEq

/-- `MarketData.subscribe`. -/
def subscribe (daemon : SubscribeRequest → Resp) (codes : Codes)
    (sub_types : Option (List SubType)) : Except FutuError SubResult :=
  let req := subscribe_request codes sub_types
  let r := daemon req
  if r.ret ≠ 0 then .error (.marketData ("Failed to subscribe: " ++ r.msg))
  else .ok { status := "subscribed", codes := req.codes }

/-- `MarketData.unsubscribe`. -/
def unsubscribe (daemon : SubscribeRequest → Resp) (codes : Codes)
    (sub_types : Option (List SubType)) : Except FutuError SubResult :=
  let req := subscribe_request codes sub_types
  let r := daemon req
  if r.ret ≠ 0 then .error (.marketData ("Failed to unsubscribe: " ++ r.msg))
  else .ok { status := "unsubscribed", codes := req.codes }

/-- `MarketData.get_quote`: the request of `ctx.get_stock_quote` is the
normalized code list. -/
def get_quote (daemon : List String → Resp) (codes : Codes) : Except FutuError (List Row) :=
  let r := daemon (normalizeCodes codes)
  if r.ret ≠ 0 then .error (.marketData ("Failed to get quote: " ++ r.msg))
  else .ok (records_or_empty r.df)

/-- The `period_map` dictionary of `get_klines` / `get_cur_klines` with
its `.get(period, KLType.K_DAY)` default. -/
def period_map (period : String) : KLType :=
  if period = "MIN_1" then .K_1M
  else if period = "MIN_5" then .K_5M
  else if period = "MIN_15" then .K_15M
  else if period = "MIN_30" then .K_30M
  else if period = "MIN_60" then .K_60M
  else if period = "DAY" then .K_DAY
  else if period = "WEEK" then .K_WEEK
  else if period = "MONTH" then .K_MON
  else if period = "YEAR" then .K_YEAR
  else .K_DAY

/-- Arguments of `ctx.request_history_kl` (the third component of its
reply, `page_req_key`, is dropped by the source and is not modelled). -/
structure KLRequest where
  code : String
  ktype : KLType
  autype : Option String
  start : Option String
  end_ : Option String
  max_count : Nat
deriving DecidableEq

/-- `MarketData.get_klines`. -/
def get_klines (daemon : KLRequest → Resp) (code : String) (period : String) (count : Nat)
    (start : Option String) (end_ : Option String) : Except FutuError (List Row) :=
  let req : KLRequest :=
    { code := code, ktype := period_map period, autype := none,
      start := start, end_ := end_, max_count := count }
  let r := daemon req
  if r.ret ≠ 0 then .error (.marketData ("Failed to get K-lines: " ++ r.msg))
  else .ok (records_or_empty r.df)

/-- Arguments of `ctx.get_cur_kline`. -/
structure CurKlineRequest where
  codes : List String
  num : Nat
  ktype : KLType
deriving DecidableEq

/-- The request built by `MarketData.get_cur_klines`. -/
def cur_kline_request (codes : Codes) (num : Nat) (period : String) : CurKlineRequest :=
  { codes := normalizeCodes codes, num := num, ktype := period_map period }

/-- `MarketData.get_cur_klines`. -/
def get_cur_klines (daemon : CurKlineRequest → Resp) (codes : Codes) (period : String)
    (num : Nat) : Except FutuError (List Row) :=
  let r := daemon (cur_kline_request codes num period)
  if r.ret ≠ 0 then .error (.marketData ("Failed to get current K-lines: " ++ r.msg))
  else .ok (records_or_empty r.df)

/-- `MarketData.get_subscription`: `ctx.query_subscription` takes no
arguments, so the daemon reply is passed directly. -/
def get_subscription (r : Resp) : Except FutuError (List Row) :=
  if r.ret ≠ 0 then .error (.marketData ("Failed to get subscription: " ++ r.msg))
  else .ok (records_or_empty r.df)

/-- `MarketData.get_market_snapshot`: the request of
`ctx.get_market_snapshot` is the normalized code list. -/
def get_market_snapshot (daemon : List String → Resp) (codes : Codes) :
    Except FutuError (List Row) :=
  let r := daemon (normalizeCodes codes)
  if r.ret ≠ 0 then .error (.marketData ("Failed to get market snapshot: " ++ r.msg))
  else .ok (records_or_empty r.df)

/-- `MarketData.get_stock_basicinfo`: `ctx.get_stock_basicinfo(market,
stock_type)`. -/
def get_stock_basicinfo (daemon : String × String → Resp) (market : String)
    (stock_type : String) : Except FutuError (List Row) :=
  let r := daemon (market, stock_type)
  if r.ret ≠ 0 then .error (.marketData ("Failed to get stock basic info: " ++ r.msg))
  else .ok (records_or_empty r.df)

end MarketData

/-! ## scripts/trading.py (Trading Facade)

As for the market data facade, every operation first obtains the trade
context (`TradingManager._get_trade_ctx`, modelled below as
`TradingManager.get_trade_ctx`); the operations themselves take the
daemon oracle of their single call, and the `kwargs` dictionary each of
them builds is a request structure.  `if self.acc_id: kwargs["acc_id"] =
self.acc_id` becomes an optional `acc_id` field that is `none` when the
configured account id is falsy. -/

/-- `TradingManager` state. -/
structure TradingManager where
  market : String
  acc_id : Option String
  trd_env : TrdEnv
  trade_ctx : Option TradeCtx
deriving DecidableEq

/-- `TradingManager.__init__`: `acc_id or TRADING_ACCOUNT_ID`. -/
def TradingManager.init (market : String) (acc_id : Option String) (trd_env : TrdEnv) :
    TradingManager :=
  { market := market
    acc_id := if truthy acc_id then acc_id else TRADING_ACCOUNT_ID
    trd_env := trd_env
    trade_ctx := none }

/-- `TradingManager._get_trade_ctx` (also exposed as `get_trade_ctx`):
return the cached context or borrow one from the client for the
configured market, caching it on success. -/
def TradingManager.get_trade_ctx (m : TradingManager) (c : FutuClient)
    (unlock_password : Option String) (unlock_resp : Resp) :
    Except FutuError TradeCtx × TradingManager × FutuClient :=
  match m.trade_ctx with
  | some ctx => (.ok ctx, m, c)
  | none =>
    match c.get_trade_ctx unlock_password unlock_resp m.market with
    | (.ok ctx, c2) => (.ok ctx, { m with trade_ctx := some ctx }, c2)
    | (.error e, c2) => (.error e, m, c2)

/-- The `acc_id` entry added to a kwargs dictionary when the configured
account id is truthy. -/
def TradingManager.acc_id_kwarg (m : TradingManager) : Option String :=
  if truthy m.acc_id then m.acc_id else none

/-- Arguments of `ctx.place_order`. -/
structure OrderRequest where
  price : Int
  qty : Int
  code : String
  trd_side : TrdSide
  order_type : OrderType
  trd_env : TrdEnv
  acc_id : Option String
deriving DecidableEq

/-- The kwargs built by `TradingManager.place_order`. -/
def TradingManager.order_kwargs (m : TradingManager) (code : String) (price : Int)
    (quantity : Int) (side : TrdSide) (order_type : OrderType) : OrderRequest :=
  { price := price, qty := quantity, code := code, trd_side := side,
    order_type := order_type, trd_env := m.trd_env, acc_id := m.acc_id_kwarg }

/-- The dict returned by a successful `place_order`. -/
structure OrderResult where
  order_id : Option Val
  status : String
  data : List Row
deriving DecidableEq

/-- `TradingManager.place_order` (`order_type` defaults to
`OrderType.NORMAL` in the source).  On success the `order_id` field is
`data.iloc[0]["order_id"] if len(data) > 0 else None`; a missing
`order_id` column in a non-empty payload is the KeyError that lookup
would raise. -/
def TradingManager.place_order (m : TradingManager) (daemon : OrderRequest → Resp)
    (code : String) (price : Int) (quantity : Int) (side : TrdSide)
    (order_type : OrderType) : Except FutuError OrderResult :=
  let r := daemon (m.order_kwargs code price quantity side order_type)
  if r.ret ≠ 0 then .error (.order ("Failed to place order: " ++ r.msg))
  else if r.df.cells.length > 0 then
    match r.df.iloc0_get "order_id" with
    | some v => .ok { order_id := some v, status := "placed", data := records_or_empty r.df }
    | none => .error (.keyError "order_id")
  else .ok { order_id := none, status := "placed", data := records_or_empty r.df }

/-- Arguments of `ctx.position_list_query` (the `code` key is present
even when the filter is `None`). -/
structure PositionListRequest where
  code : Option String
  trd_env : TrdEnv
  acc_id : Option String
deriving DecidableEq

/-- The kwargs built by `TradingManager.get_positions`. -/
def TradingManager.position_kwargs (m : TradingManager) (code : Option String) :
    PositionListRequest :=
  { code := code, trd_env := m.trd_env, acc_id := m.acc_id_kwarg }

/-- `TradingManager.get_positions`. -/
def TradingManager.get_positions (m : TradingManager) (daemon : PositionListRequest → Resp)
    (code : Option String) : Except FutuError (List Row) :=
  let r := daemon (m.position_kwargs code)
  if r.ret ≠ 0 then .error (.account ("Failed to get positions: " ++ r.msg))
  else .ok (records_or_empty r.df)

/-- `TradingManager.get_position`: `positions[0] if positions else None`
over `get_positions(code=code)`. -/
def TradingManager.get_position (m : TradingManager) (daemon : PositionListRequest → Resp)
    (code : String) : Except FutuError (Option Row) :=
  match m.get_positions daemon (some code) with
  | .error e => .error e
  | .ok positions =>
    .ok (match positions with
      | [] => none
      | p :: _ => some p)

/-- Arguments of `ctx.order_list_query`. -/
structure OrderListRequest where
  status_filter_list : Option (List OrderStatus)
  trd_env : TrdEnv
  acc_id : Option String
deriving DecidableEq

/-- The kwargs built by `TradingManager.get_today_orders`. -/
def TradingManager.order_list_kwargs (m : TradingManager)
    (status : Option (List OrderStatus)) : OrderListRequest :=
  { status_filter_list := status, trd_env := m.trd_env, acc_id := m.acc_id_kwarg }

/-- `TradingManager.get_today_orders` (`status` defaults to `None`). -/
def TradingManager.get_today_orders (m : TradingManager) (daemon : OrderListRequest → Resp)
    (status : Option (List OrderStatus)) : Except FutuError (List Row) :=
  let r := daemon (m.order_list_kwargs status)
  if r.ret ≠ 0 then .error (.order ("Failed to get orders: " ++ r.msg))
  else .ok (records_or_empty r.df)

/-- `TradingManager.get_filled_orders`. -/
def TradingManager.get_filled_orders (m : TradingManager) (daemon : OrderListRequest → Resp) :
    Except FutuError (List Row) :=
  m.get_today_orders daemon (some [OrderStatus.FILLED_ALL, OrderStatus.FILLED_PART])

/-- `TradingManager.get_pending_orders`. -/
def TradingManager.get_pending_orders (m : TradingManager) (daemon : OrderListRequest → Resp) :
    Except FutuError (List Row) :=
  m.get_today_orders daemon (some [OrderStatus.SUBMITTED, OrderStatus.WAITING_SUBMIT])

/-- Arguments of `ctx.modify_order` (`modify_order_op = 0` is the cancel
operation). -/
structure ModifyOrderRequest where
  modify_order_op : Nat
  order_id : Val
  trd_env : TrdEnv
  acc_id : Option String
deriving DecidableEq

/-- The kwargs built by `TradingManager.cancel_order`. -/
def TradingManager.cancel_kwargs (m : TradingManager) (order_id : Val) : ModifyOrderRequest :=
  { modify_order_op := 0, order_id := order_id, trd_env := m.trd_env,
    acc_id := m.acc_id_kwarg }

/-- The dict returned by a successful `cancel_order`. -/
structure CancelResult where
  order_id : Val
  status : String
  data : List Row
deriving DecidableEq

/-- `TradingManager.cancel_order`. -/
def TradingManager.cancel_order (m : TradingManager) (daemon : ModifyOrderRequest → Resp)
    (order_id : Val) : Except FutuError CancelResult :=
  let r := daemon (m.cancel_kwargs order_id)
  if r.ret ≠ 0 then .error (.order ("Failed to cancel order: " ++ r.msg))
  else .ok { order_id := order_id, status := "cancelled", data := records_or_empty r.df }

/-- One element of the list returned by `cancel_all_orders`: either the
dict returned by `cancel_order`, or the error dict `{"order_id":
order.get("order_id"), "status": "error", "error": str(e)}` built in the
per-item except branch. -/
inductive CancelEntry where
  | result (r : CancelResult)
  | error (order_id : Option Val) (error : String)
deriving DecidableEq

/-- The body of the per-order loop of `cancel_all_orders`: look up
`order["order_id"]` (a missing key raises inside the try and is caught
like any other failure), attempt the cancel, and turn an exception into
an error entry. -/
def TradingManager.cancel_step (m : TradingManager) (daemon : ModifyOrderRequest → Resp)
    (order : Row) : CancelEntry :=
  match order.lookup "order_id" with
  | none => .error (order.lookup "order_id") (FutuError.str (.keyError "order_id"))
  | some oid =>
    match m.cancel_order daemon oid with
    | .ok res => .result res
    | .error e => .error (order.lookup "order_id") e.str

/-- `TradingManager.cancel_all_orders`: list the pending orders (a
failure of that listing propagates), then run the per-order loop,
collecting one entry per pending order. -/
def TradingManager.cancel_all_orders (m : TradingManager) (orders_daemon : OrderListRequest → Resp)
    (modify_daemon : ModifyOrderRequest → Resp) : Except FutuError (List CancelEntry) :=
  match m.get_pending_orders orders_daemon with
  | .error e => .error e
  | .ok pending => .ok (pending.map fun order => m.cancel_step modify_daemon order)

/-- pandas boolean-mask filtering `df[df[key] == v]`; a missing column is
the KeyError that `df[key]` would raise. -/
def DataFrame.filter_eq (df : DataFrame) (key : String) (v : Val) :
    Except FutuError DataFrame :=
  if df.columns.contains key then
    .ok { columns := df.columns
          cells := df.cells.filter fun r => (df.columns.zip r).lookup key == some v }
  else .error (.keyError key)

/-- The environment tag string a `TrdEnv` is compared against in
`get_account_info`. -/
def trdEnvTag : TrdEnv → String
  | .SIMULATE => "SIMULATE"
  | .REAL => "REAL"

/-- `TradingManager.get_account_info` (`account_type` defaults to
`TrdEnv.SIMULATE` in the source).  `r` is the reply of
`ctx.get_acc_list()`, a call that takes no arguments.  The source block
after the if/else is unreachable (both branches return or raise) and is
not modelled.  The `print` calls are side effects without influence on
the result. -/
def TradingManager.get_account_info (m : TradingManager) (r : Resp)
    (account_type : TrdEnv) : Except FutuError (Option Row) :=
  if r.ret = 0 then
    match account_type with
    | .SIMULATE =>
      match DataFrame.filter_eq r.df "trd_env" "SIMULATE" with
      | .error e => .error e
      | .ok sub => .ok (if sub.empty then none else sub.iloc0)
    | .REAL =>
      match DataFrame.filter_eq r.df "trd_env" "REAL" with
      | .error e => .error e
      | .ok sub => .ok (if sub.empty then none else sub.iloc0)
  else .error (.account ("Failed to get account list: " ++ r.msg))

/-- Arguments of `ctx.get_max_trd_qtys`. -/
structure MaxQtyRequest where
  code : String
  price : Int
  trd_env : TrdEnv
  acc_id : Option String
deriving DecidableEq

/-- The kwargs built by `TradingManager.get_max_trd_qtys`. -/
def TradingManager.max_qty_kwargs (m : TradingManager) (code : String) (price : Int) :
    MaxQtyRequest :=
  { code := code, price := price, trd_env := m.trd_env, acc_id := m.acc_id_kwarg }

/-- `TradingManager.get_max_trd_qtys`: `data.to_dict("records")[0] if not
data.empty else {}`. -/
def TradingManager.get_max_trd_qtys (m : TradingManager) (daemon : MaxQtyRequest → Resp)
    (code : String) (price : Int) : Except FutuError Row :=
  let r := daemon (m.max_qty_kwargs code price)
  if r.ret ≠ 0 then .error (.account ("Failed to get max trade qtys: " ++ r.msg))
  else .ok (if r.df.empty then [] else r.df.to_dict_records.headI)

/-! ## Verification vocabulary -/

/-- Whether an `Except` value is a success (the operation did not raise). -/
def exceptOk {ε α : Type} : Except ε α → Bool
  | .ok _ => true
  | .error _ => false

/-- The propagation contract of a wrapper operation around one daemon
reply `r`: the operation succeeds exactly when the status code is zero,
and on a non-zero code it raises precisely the error `e` (whose message
embeds the daemon message verbatim at each call site below). -/
def surfaces {α : Type} (r : Resp) (e : FutuError) (res : Except FutuError α) : Prop :=
  (exceptOk res = true ↔ r.ret = 0) ∧ (r.ret ≠ 0 → res = .error e)

/-- A well-formed tabular payload: every cell row has one value per
column (pandas cannot represent ragged frames). -/
abbrev wellformed (df : DataFrame) : Prop :=
  ∀ row ∈ df.cells, row.length = df.columns.length

/-! ## Concrete fixtures used by witnesses and counterexamples -/

def empty_df : DataFrame := { columns := [], cells := [] }

def ok_df : DataFrame :=
  { columns := ["order_id", "trd_env"], cells := [["OID1", "SIMULATE"]] }

def ok_resp : Resp := { ret := 0, msg := "", df := ok_df }

def fail_resp : Resp := { ret := 1, msg := "daemon says no", df := empty_df }

/-- A manager in the default simulated environment with no account id. -/
def mgr0 : TradingManager :=
  { market := "HK", acc_id := none, trd_env := .SIMULATE, trade_ctx := none }

/-- A client configured for the REAL trading environment. -/
def real_client : FutuClient :=
  { host := FUTU_HOST, port := FUTU_PORT, trading_env := "REAL",
    quote_ctx := none, trade_ctx := none }

/-- The trade context `real_client` creates for market HK before the
unlock attempt. -/
def stale_trade_ctx : TradeCtx :=
  { host := FUTU_HOST, port := FUTU_PORT, market := "HK", trd_env := .REAL,
    unlocked := false }

/-- `real_client` after a failed unlock: the handle created before the
unlock attempt is still stored. -/
def broken_client : FutuClient := { real_client with trade_ctx := some stale_trade_ctx }

/-- A client configured for the simulated environment (all settings
defaulted). -/
def sim_client : FutuClient := FutuClient.init none none none

/-- The trade context `sim_client` creates for market HK. -/
def hk_ctx : TradeCtx :=
  { host := FUTU_HOST, port := FUTU_PORT, market := "HK", trd_env := .SIMULATE,
    unlocked := false }

/-- `sim_client` after obtaining a trade context for market HK. -/
def sim_client_hk : FutuClient := { sim_client with trade_ctx := some hk_ctx }

/-- A manager configured for market US with no cached context. -/
def us_mgr : TradingManager := TradingManager.init "US" none TrdEnv.SIMULATE

/-- A manager constructed for the REAL environment. -/
def real_mgr : TradingManager :=
  { market := "HK", acc_id := none, trd_env := .REAL, trade_ctx := none }

/-- A `get_acc_list` reply holding one simulated and one real account. -/
def acc_list_resp : Resp :=
  { ret := 0, msg := ""
    df := { columns := ["trd_env", "acc_id"]
            cells := [["SIMULATE", "111"], ["REAL", "222"]] } }

/-- A `position_list_query`-style reply with two position rows. -/
def pos_resp : Resp :=
  { ret := 0, msg := ""
    df := { columns := ["code", "qty"]
            cells := [["HK.00700", "100"], ["HK.00700", "200"]] } }

/-- An `order_list_query` reply listing two pending orders. -/
def pending_resp : Resp :=
  { ret := 0, msg := ""
    df := { columns := ["order_id"], cells := [["A"], ["B"]] } }

/-- The records of `pending_resp`. -/
def c3_pending : List Row := [[("order_id", "A")], [("order_id", "B")]]

/-- A `modify_order` daemon that rejects the cancel of order A and
accepts every other one. -/
def flaky_modify_daemon : ModifyOrderRequest → Resp :=
  fun req => if req.order_id = "A" then fail_resp else ok_resp

/-- The entries `cancel_all_orders` produces from `c3_pending` under
`flaky_modify_daemon`. -/
def c3_entries : List CancelEntry :=
  [.error (some "A") ("Failed to cancel order: " ++ fail_resp.msg),
   .result { order_id := "B", status := "cancelled", data := records_or_empty ok_resp.df }]

/-! ## Helper lemmas -/

/-- An operation of the shape `raise on non-zero code, else succeed`
meets the propagation contract. -/
theorem surfaces_if {α : Type} (r : Resp) (e : FutuError) (v : α) :
    surfaces r e (if r.ret ≠ 0 then Except.error e else Except.ok v) := by
  unfold surfaces
  by_cases h : r.ret = 0
  · rw [if_neg (by simp [h])]
    exact ⟨by simp [exceptOk, h], fun hne => absurd h hne⟩
  · rw [if_pos h]
    exact ⟨by simp [exceptOk, h], fun _ => rfl⟩

/-- Zipping each well-formed row with the column names yields records
whose key lists are exactly the column names. -/
theorem zip_records_keys (cols : List String) (cells : List (List Val))
    (h : ∀ row ∈ cells, row.length = cols.length) :
    (cells.map fun row => cols.zip row).map (List.map Prod.fst) =
      List.replicate cells.length cols := by
  induction cells with
  | nil => rfl
  | cons row rows ih =>
    have h1 : row.length = cols.length := h row (List.mem_cons_self row rows)
    have h2 : ∀ x ∈ rows, x.length = cols.length :=
      fun x hx => h x (List.mem_cons_of_mem row hx)
    simp only [List.map_cons, List.length_cons, List.replicate_succ, List.cons.injEq]
    exact ⟨List.map_fst_zip cols row (le_of_eq h1.symm), ih h2⟩

/-- Characterization of `place_order` around one daemon reply, assuming
the success payload carries an `order_id` column whenever it has rows:
it meets the propagation contract, and on a zero code returns the
`placed` dict with the order id read from the first row (absent when
there is no row). -/
theorem place_order_char (m : TradingManager) (d : OrderRequest → Resp) (code : String)
    (price qty : Int) (side : TrdSide) (otype : OrderType)
    (h : (d (m.order_kwargs code price qty side otype)).ret = 0 →
         (d (m.order_kwargs code price qty side otype)).df.cells ≠ [] →
         ((d (m.order_kwargs code price qty side otype)).df.iloc0_get "order_id").isSome = true) :
    surfaces (d (m.order_kwargs code price qty side otype))
      (.order ("Failed to place order: " ++ (d (m.order_kwargs code price qty side otype)).msg))
      (m.place_order d code price qty side otype) ∧
    ((d (m.order_kwargs code price qty side otype)).ret = 0 →
       m.place_order d code price qty side otype =
         .ok { order_id := (d (m.order_kwargs code price qty side otype)).df.iloc0_get "order_id",
               status := "placed",
               data := records_or_empty (d (m.order_kwargs code price qty side otype)).df }) := by
  unfold TradingManager.place_order
  revert h
  generalize d (m.order_kwargs code price qty side otype) = r
  intro h
  by_cases h0 : r.ret = 0
  · rw [if_neg (by simp [h0])]
    by_cases hc : r.df.cells = []
    · rw [if_neg (by simp [hc])]
      refine ⟨⟨by simp [exceptOk, h0], fun hne => absurd h0 hne⟩, fun _ => ?_⟩
      simp [DataFrame.iloc0_get, hc]
    · rw [if_pos (List.length_pos.mpr hc)]
      obtain ⟨v, hv⟩ := Option.isSome_iff_exists.mp (h h0 hc)
      rw [hv]
      exact ⟨⟨by simp [exceptOk, h0], fun hne => absurd h0 hne⟩, fun _ => rfl⟩
  · rw [if_pos h0]
    exact ⟨⟨by simp [exceptOk, h0], fun _ => rfl⟩, fun hz => absurd hz h0⟩

/-- pandas boolean-mask filtering followed by `iloc[0]`-or-`None` agrees
with taking the head-option of the filtered record list, provided the
filter column exists. -/
theorem mask_first_eq_filter_head (df : DataFrame) (key : String) (v : Val)
    (hcol : df.columns.contains key = true) :
    (if (DataFrame.mk df.columns
          (df.cells.filter fun row => (df.columns.zip row).lookup key == some v)).empty
     then none
     else (DataFrame.mk df.columns
          (df.cells.filter fun row => (df.columns.zip row).lookup key == some v)).iloc0) =
      ((df.to_dict_records.filter fun rec => rec.lookup key == some v).head?) := by
  obtain ⟨cols, cells⟩ := df
  dsimp only at hcol ⊢
  have hcne : cols.isEmpty = false := by
    cases cols
    · simp at hcol
    · rfl
  have hfm : ((cells.map fun row => cols.zip row).filter fun rec => rec.lookup key == some v)
      = (cells.filter fun row => (cols.zip row).lookup key == some v).map
          fun row => cols.zip row := by
    induction cells with
    | nil => rfl
    | cons a as ih =>
      simp only [List.map_cons, List.filter_cons]
      cases hp : ((cols.zip a).lookup key == some v)
      · simpa [hp] using ih
      · simp [hp, ih]
  simp only [DataFrame.to_dict_records]
  rw [hfm]
  cases hfe : cells.filter fun row => (cols.zip row).lookup key == some v with
  | nil => simp [DataFrame.empty]
  | cons x xs => simp [DataFrame.empty, hcne, DataFrame.iloc0]

/-- Characterization of `get_account_info` around the `get_acc_list`
reply, assuming the listing payload carries a `trd_env` column: it meets
the propagation contract, and on a zero code returns the first listed
account whose environment tag matches the `account_type` argument (or
the absent value). -/
theorem get_account_info_char (m : TradingManager) (r : Resp) (acct : TrdEnv)
    (henv : r.df.columns.contains "trd_env" = true) :
    surfaces r (.account ("Failed to get account list: " ++ r.msg))
      (m.get_account_info r acct) ∧
    (r.ret = 0 → m.get_account_info r acct =
      .ok ((r.df.to_dict_records.filter fun rec =>
        rec.lookup "trd_env" == some (trdEnvTag acct)).head?)) := by
  by_cases h0 : r.ret = 0
  · have hmain : m.get_account_info r acct =
        .ok ((r.df.to_dict_records.filter fun rec =>
          rec.lookup "trd_env" == some (trdEnvTag acct)).head?) := by
      unfold TradingManager.get_account_info
      rw [if_pos h0]
      cases acct
      · have hfe : DataFrame.filter_eq r.df "trd_env" "SIMULATE" =
            .ok (DataFrame.mk r.df.columns (r.df.cells.filter fun row =>
              (r.df.columns.zip row).lookup "trd_env" == some "SIMULATE")) := by
          unfold DataFrame.filter_eq
          rw [if_pos henv]
        rw [hfe]
        exact congrArg Except.ok (mask_first_eq_filter_head r.df "trd_env" "SIMULATE" henv)
      · have hfe : DataFrame.filter_eq r.df "trd_env" "REAL" =
            .ok (DataFrame.mk r.df.columns (r.df.cells.filter fun row =>
              (r.df.columns.zip row).lookup "trd_env" == some "REAL")) := by
          unfold DataFrame.filter_eq
          rw [if_pos henv]
        rw [hfe]
        exact congrArg Except.ok (mask_first_eq_filter_head r.df "trd_env" "REAL" henv)
    exact ⟨⟨by rw [hmain]; simp [exceptOk, h0], fun hne => absurd h0 hne⟩, fun _ => hmain⟩
  · have herr : m.get_account_info r acct =
        .error (.account ("Failed to get account list: " ++ r.msg)) := by
      unfold TradingManager.get_account_info
      rw [if_neg h0]
    exact ⟨⟨by rw [herr]; simp [exceptOk, h0], fun _ => herr⟩, fun hz => absurd hz h0⟩

/-! ## Claim theorems -/

/-- C1: on a REAL-environment client with an unlock credential
configured, a rejected unlock raises the authorization error carrying
the daemon message — but the trade handle created before the unlock
attempt stays stored with `unlocked = false`, and the next
`get_trade_ctx` call returns that un-unlocked handle.  This exhibits the
violation of the invariant that a non-null stored handle is always
usable. -/
theorem unlock_failure_exposes_stale_trade_handle :
    (real_client.get_trade_ctx (some "pw") fail_resp "HK").1 =
      .error (.authorization ("Failed to unlock trading: " ++ fail_resp.msg)) ∧
    (real_client.get_trade_ctx (some "pw") fail_resp "HK").2 = broken_client ∧
    stale_trade_ctx.unlocked = false ∧
    (broken_client.get_trade_ctx (some "pw") fail_resp "HK").1 = .ok stale_trade_ctx :=
  ⟨rfl, rfl, rfl, rfl⟩

/-- C7: `close` releases exactly the handles that are present, leaves
both fields absent, and a second `close` releases nothing and changes
nothing (idempotence). -/
theorem close_idempotent (c : FutuClient) :
    (c.close.2.quote_ctx = none ∧ c.close.2.trade_ctx = none) ∧
    c.close.1 = (if c.quote_ctx.isSome then ["quote"] else []) ++
      (if c.trade_ctx.isSome then ["trade"] else []) ∧
    c.close.2.close = ([], c.close.2) :=
  ⟨⟨rfl, rfl⟩, rfl, rfl⟩

/-- C8: when `get_positions(code)` yields a list, `get_position(code)`
returns exactly the head-option of that list — the first record when the
list is non-empty, the explicit absent value (not an error, not an empty
mapping) when it is empty. -/
theorem get_position_head_of_positions (m : TradingManager)
    (daemon : PositionListRequest → Resp) (code : String) (positions : List Row)
    (h : m.get_positions daemon (some code) = .ok positions) :
    m.get_position daemon code = .ok positions.head? := by
  unfold TradingManager.get_position
  rw [h]
  cases positions <;> rfl

/-- Witness for C8: with a daemon reply holding two position rows,
`get_position` returns the first one. -/
theorem get_position_head_of_positions_witness :
    mgr0.get_position (fun _ => pos_resp) "HK.00700" =
      .ok (some [("code", "HK.00700"), ("qty", "100")]) :=
  get_position_head_of_positions mgr0 (fun _ => pos_resp) "HK.00700"
    [[("code", "HK.00700"), ("qty", "100")], [("code", "HK.00700"), ("qty", "200")]] rfl

/-- C9: each facade method accepting a symbol or a sequence of symbols
(subscribe, unsubscribe, get_quote, get_cur_klines for live candles,
get_market_snapshot) builds the same daemon request and produces the
same result for a bare symbol as for the one-element list containing
it. -/
theorem single_symbol_singleton_equiv (s : String) (st : Option (List SubType))
    (dsub dunsub : MarketData.SubscribeRequest → Resp) (dq dsnap : List String → Resp)
    (dck : MarketData.CurKlineRequest → Resp) (period : String) (num : Nat) :
    normalizeCodes (.single s) = normalizeCodes (.many [s]) ∧
    MarketData.subscribe_request (.single s) st = MarketData.subscribe_request (.many [s]) st ∧
    MarketData.cur_kline_request (.single s) num period =
      MarketData.cur_kline_request (.many [s]) num period ∧
    MarketData.subscribe dsub (.single s) st = MarketData.subscribe dsub (.many [s]) st ∧
    MarketData.unsubscribe dunsub (.single s) st = MarketData.unsubscribe dunsub (.many [s]) st ∧
    MarketData.get_quote dq (.single s) = MarketData.get_quote dq (.many [s]) ∧
    MarketData.get_cur_klines dck (.single s) period num =
      MarketData.get_cur_klines dck (.many [s]) period num ∧
    MarketData.get_market_snapshot dsnap (.single s) =
      MarketData.get_market_snapshot dsnap (.many [s]) :=
  ⟨rfl, rfl, rfl, rfl, rfl, rfl, rfl, rfl⟩

/-- C10: once a client holds a trade context, every later
`get_trade_ctx` call returns that context and ignores its market
argument: the context remains scoped to the first requested market, no
error is raised, no new handle is created, and a manager configured for
any other market borrows that same context. -/
theorem trade_ctx_first_market_wins (c c1 : FutuClient) (pw pw2 : Option String)
    (r1 r2 r3 : Resp) (m1 m2 : String) (ctx : TradeCtx) (mgr : TradingManager)
    (h0 : c.trade_ctx = none)
    (h1 : c.get_trade_ctx pw r1 m1 = (.ok ctx, c1))
    (hmgr : mgr.trade_ctx = none) :
    ctx.market = m1 ∧
    c1.get_trade_ctx pw2 r2 m2 = (.ok ctx, c1) ∧
    mgr.get_trade_ctx c1 pw2 r3 = (.ok ctx, { mgr with trade_ctx := some ctx }, c1) := by
  have key : ctx.market = m1 ∧ c1.trade_ctx = some ctx := by
    unfold FutuClient.get_trade_ctx at h1
    rw [h0] at h1
    dsimp only at h1
    split at h1
    · split at h1
      · injection h1 with he hs
        injection he
      · injection h1 with he hs
        injection he with hctx
        subst hctx
        subst hs
        exact ⟨rfl, rfl⟩
    · injection h1 with he hs
      injection he with hctx
      subst hctx
      subst hs
      exact ⟨rfl, rfl⟩
  obtain ⟨hm, hc⟩ := key
  have hcached : ∀ (pw0 : Option String) (r0 : Resp) (mk0 : String),
      c1.get_trade_ctx pw0 r0 mk0 = (.ok ctx, c1) := by
    intro pw0 r0 mk0
    unfold FutuClient.get_trade_ctx
    rw [hc]
  refine ⟨hm, hcached pw2 r2 m2, ?_⟩
  unfold TradingManager.get_trade_ctx
  rw [hmgr, hcached pw2 r3 mgr.market]

/-- Witness for C10: a fresh simulated client asked for market HK then
market US keeps the HK-scoped context, and a US-configured manager
borrows it. -/
theorem trade_ctx_first_market_wins_witness :
    hk_ctx.market = "HK" ∧
    sim_client_hk.get_trade_ctx none ok_resp "US" = (.ok hk_ctx, sim_client_hk) ∧
    us_mgr.get_trade_ctx sim_client_hk none ok_resp =
      (.ok hk_ctx, { us_mgr with trade_ctx := some hk_ctx }, sim_client_hk) :=
  trade_ctx_first_market_wins sim_client sim_client_hk none none ok_resp ok_resp ok_resp
    "HK" "US" hk_ctx us_mgr rfl rfl rfl

/-- C5: a successful daemon call with a well-formed tabular payload is
converted by the facades (here `get_quote` and `get_positions`) to
`records_or_empty`; a non-empty payload of N rows yields exactly N
records whose key lists are the column names, and an empty payload
yields the empty sequence rather than a failure. -/
theorem tabular_payload_roundtrip (r : Resp) (codes : Codes) (m : TradingManager)
    (pcode : Option String) (h0 : r.ret = 0) (hw : wellformed r.df) :
    MarketData.get_quote (fun _ => r) codes = .ok (records_or_empty r.df) ∧
    m.get_positions (fun _ => r) pcode = .ok (records_or_empty r.df) ∧
    (r.df.empty = false → (records_or_empty r.df).length = r.df.cells.length) ∧
    (records_or_empty r.df).map (List.map Prod.fst) =
      List.replicate (records_or_empty r.df).length r.df.columns ∧
    (r.df.empty = true → records_or_empty r.df = []) := by
  refine ⟨by simp [MarketData.get_quote, h0], by simp [TradingManager.get_positions, h0],
    ?_, ?_, ?_⟩
  · intro he
    simp [records_or_empty, he, DataFrame.to_dict_records]
  · by_cases he : r.df.empty = true
    · simp [records_or_empty, he]
    · simp only [records_or_empty, he, if_false, Bool.false_eq_true, ite_false,
        DataFrame.to_dict_records, List.length_map]
      exact zip_records_keys r.df.columns r.df.cells hw
  · intro he
    simp [records_or_empty, he]

/-- Witness for C5, at a one-row two-column payload. -/
theorem tabular_payload_roundtrip_witness :
    MarketData.get_quote (fun _ => ok_resp) (.single "HK.00700") =
      .ok (records_or_empty ok_resp.df) ∧
    mgr0.get_positions (fun _ => ok_resp) none = .ok (records_or_empty ok_resp.df) ∧
    (ok_resp.df.empty = false →
      (records_or_empty ok_resp.df).length = ok_resp.df.cells.length) ∧
    (records_or_empty ok_resp.df).map (List.map Prod.fst) =
      List.replicate (records_or_empty ok_resp.df).length ok_resp.df.columns ∧
    (ok_resp.df.empty = true → records_or_empty ok_resp.df = []) :=
  tabular_payload_roundtrip ok_resp (.single "HK.00700") mgr0 none rfl (by decide)

/-- C6: `place_order` with the MARKET order kind and price 0 builds a
request whose price field is exactly 0, performs no local validation (it
fails exactly when the daemon reports a non-zero code, with the order
error carrying the daemon message), and on success returns the `placed`
dict whose order id comes from the first result row (absent when there
are no rows) and whose data is the record list. -/
theorem place_order_market_zero_price (m : TradingManager) (d : OrderRequest → Resp)
    (code : String) (qty : Int) (side : TrdSide)
    (h : (d (m.order_kwargs code 0 qty side .MARKET)).ret = 0 →
         (d (m.order_kwargs code 0 qty side .MARKET)).df.cells ≠ [] →
         ((d (m.order_kwargs code 0 qty side .MARKET)).df.iloc0_get "order_id").isSome = true) :
    (m.order_kwargs code 0 qty side .MARKET).price = 0 ∧
    surfaces (d (m.order_kwargs code 0 qty side .MARKET))
      (.order ("Failed to place order: " ++ (d (m.order_kwargs code 0 qty side .MARKET)).msg))
      (m.place_order d code 0 qty side .MARKET) ∧
    ((d (m.order_kwargs code 0 qty side .MARKET)).ret = 0 →
       m.place_order d code 0 qty side .MARKET =
         .ok { order_id := (d (m.order_kwargs code 0 qty side .MARKET)).df.iloc0_get "order_id",
               status := "placed",
               data := records_or_empty (d (m.order_kwargs code 0 qty side .MARKET)).df }) := by
  obtain ⟨h1, h2⟩ := place_order_char m d code 0 qty side .MARKET h
  exact ⟨rfl, h1, h2⟩

/-- Witness for C6, at a daemon reply carrying one row with an order
id. -/
theorem place_order_market_zero_price_witness :
    (mgr0.order_kwargs "HK.00700" 0 100 .BUY .MARKET).price = 0 ∧
    surfaces ok_resp (.order ("Failed to place order: " ++ ok_resp.msg))
      (mgr0.place_order (fun _ => ok_resp) "HK.00700" 0 100 .BUY .MARKET) ∧
    (ok_resp.ret = 0 →
       mgr0.place_order (fun _ => ok_resp) "HK.00700" 0 100 .BUY .MARKET =
         .ok { order_id := ok_resp.df.iloc0_get "order_id",
               status := "placed", data := records_or_empty ok_resp.df }) :=
  place_order_market_zero_price mgr0 (fun _ => ok_resp) "HK.00700" 100 .BUY (by decide)

/-- C4 counterexample: a facade constructed for the REAL environment,
calling `get_account_info` with its default argument, gets back the
first SIMULATE-tagged account — the filter uses the `account_type`
argument, not the environment fixed at construction, so the operation is
not scoped to the facade environment. -/
theorem get_account_info_ignores_facade_env :
    real_mgr.trd_env = TrdEnv.REAL ∧
    real_mgr.get_account_info acc_list_resp TrdEnv.SIMULATE =
      .ok (some [("trd_env", "SIMULATE"), ("acc_id", "111")]) ∧
    ([("trd_env", "SIMULATE"), ("acc_id", "111")] : Row).lookup "trd_env" =
      some "SIMULATE" ∧
    ("SIMULATE" : String) ≠ "REAL" :=
  ⟨rfl, rfl, rfl, by decide⟩

/-- C4 (amended): every trading request built by place_order,
get_positions, get_today_orders, cancel_order and get_max_trd_qtys
carries the environment fixed at construction; get_account_info instead
lists all accounts with an unscoped call, filters them by the
environment tag named by its `account_type` argument, returns the first
match or the absent value, and fails with the account error exactly when
the listing call fails. -/
theorem trading_request_scoping (m : TradingManager) (code : String) (price qty : Int)
    (side : TrdSide) (otype : OrderType) (pcode : Option String)
    (status : Option (List OrderStatus)) (oid : Val) (qcode : String) (qprice : Int)
    (acct : TrdEnv) (r : Resp) (henv : r.df.columns.contains "trd_env" = true) :
    (m.order_kwargs code price qty side otype).trd_env = m.trd_env ∧
    (m.position_kwargs pcode).trd_env = m.trd_env ∧
    (m.order_list_kwargs status).trd_env = m.trd_env ∧
    (m.cancel_kwargs oid).trd_env = m.trd_env ∧
    (m.max_qty_kwargs qcode qprice).trd_env = m.trd_env ∧
    (r.ret ≠ 0 → m.get_account_info r acct =
       .error (.account ("Failed to get account list: " ++ r.msg))) ∧
    (r.ret = 0 → m.get_account_info r acct =
       .ok ((r.df.to_dict_records.filter fun rec =>
         rec.lookup "trd_env" == some (trdEnvTag acct)).head?)) := by
  obtain ⟨⟨hiff, himp⟩, hmain⟩ := get_account_info_char m r acct henv
  exact ⟨rfl, rfl, rfl, rfl, rfl, himp, hmain⟩

/-- Witness for C4 (amended), at the two-account listing reply. -/
theorem trading_request_scoping_witness :
    (mgr0.order_kwargs "HK.00700" 500 100 .BUY .NORMAL).trd_env = mgr0.trd_env ∧
    (mgr0.position_kwargs none).trd_env = mgr0.trd_env ∧
    (mgr0.order_list_kwargs none).trd_env = mgr0.trd_env ∧
    (mgr0.cancel_kwargs "OID1").trd_env = mgr0.trd_env ∧
    (mgr0.max_qty_kwargs "HK.00700" 500).trd_env = mgr0.trd_env ∧
    (acc_list_resp.ret ≠ 0 → mgr0.get_account_info acc_list_resp TrdEnv.REAL =
       .error (.account ("Failed to get account list: " ++ acc_list_resp.msg))) ∧
    (acc_list_resp.ret = 0 → mgr0.get_account_info acc_list_resp TrdEnv.REAL =
       .ok ((acc_list_resp.df.to_dict_records.filter fun rec =>
         rec.lookup "trd_env" == some (trdEnvTag TrdEnv.REAL)).head?)) :=
  trading_request_scoping mgr0 "HK.00700" 500 100 .BUY .NORMAL none none "OID1"
    "HK.00700" 500 TrdEnv.REAL acc_list_resp (by decide)

/-- One iteration of the `cancel_all_orders` loop, for an order record
carrying an order id: a zero-code cancel reply yields the cancelled
dict, a non-zero one yields the error entry carrying that order id and
the raised message. -/
theorem cancel_step_eq (m : TradingManager) (d : ModifyOrderRequest → Resp) (order : Row)
    (oid : Val) (hoid : order.lookup "order_id" = some oid) :
    ((d (m.cancel_kwargs oid)).ret = 0 →
       m.cancel_step d order = .result { order_id := oid, status := "cancelled",
                                         data := records_or_empty (d (m.cancel_kwargs oid)).df }) ∧
    ((d (m.cancel_kwargs oid)).ret ≠ 0 →
       m.cancel_step d order = .error (some oid)
         ("Failed to cancel order: " ++ (d (m.cancel_kwargs oid)).msg)) := by
  unfold TradingManager.cancel_step TradingManager.cancel_order
  simp only [hoid]
  constructor
  · intro h0
    rw [if_neg (by simp [h0])]
  · intro hne
    rw [if_pos hne]
    rfl

/-- C3: when the pending listing succeeds, `cancel_all_orders` returns
exactly one entry per pending order in listing order, and the entry at
each position depends only on the cancel reply for that order: a
rejected cancel is recorded as an error entry carrying that order id
without affecting any other position. -/
theorem cancel_all_per_item (m : TradingManager) (orders_daemon : OrderListRequest → Resp)
    (modify_daemon : ModifyOrderRequest → Resp) (pending : List Row)
    (entries : List CancelEntry)
    (hp : m.get_pending_orders orders_daemon = .ok pending)
    (he : m.cancel_all_orders orders_daemon modify_daemon = .ok entries)
    (i : Nat) (hi : i < pending.length) (oid : Val)
    (hoid : (pending.get ⟨i, hi⟩).lookup "order_id" = some oid) :
    entries.length = pending.length ∧
    ((modify_daemon (m.cancel_kwargs oid)).ret = 0 →
       entries.get? i = some (.result { order_id := oid, status := "cancelled",
                                        data := records_or_empty (modify_daemon (m.cancel_kwargs oid)).df })) ∧
    ((modify_daemon (m.cancel_kwargs oid)).ret ≠ 0 →
       entries.get? i = some (.error (some oid)
         ("Failed to cancel order: " ++ (modify_daemon (m.cancel_kwargs oid)).msg))) := by
  have hca : m.cancel_all_orders orders_daemon modify_daemon =
      .ok (pending.map fun order => m.cancel_step modify_daemon order) := by
    unfold TradingManager.cancel_all_orders
    rw [hp]
  have hentries : entries = pending.map fun order => m.cancel_step modify_daemon order := by
    have hoo := hca.symm.trans he
    injection hoo with hoo2
    exact hoo2.symm
  subst hentries
  obtain ⟨hres, herr⟩ := cancel_step_eq m modify_daemon (pending.get ⟨i, hi⟩) oid hoid
  refine ⟨by simp, ?_, ?_⟩
  · intro h0
    simp only [List.get?_eq_getElem?, List.getElem?_map]
    rw [List.getElem?_eq_getElem hi]
    simpa using hres h0
  · intro hne
    simp only [List.get?_eq_getElem?, List.getElem?_map]
    rw [List.getElem?_eq_getElem hi]
    simpa using herr hne

/-- Witness for C3: two pending orders A and B, the daemon rejecting the
cancel of A; the entry at position 1 is the successful cancel of B. -/
theorem cancel_all_per_item_witness :
    c3_entries.length = c3_pending.length ∧
    ((flaky_modify_daemon (mgr0.cancel_kwargs "B")).ret = 0 →
       c3_entries.get? 1 = some (.result { order_id := "B", status := "cancelled",
                                           data := records_or_empty (flaky_modify_daemon (mgr0.cancel_kwargs "B")).df })) ∧
    ((flaky_modify_daemon (mgr0.cancel_kwargs "B")).ret ≠ 0 →
       c3_entries.get? 1 = some (.error (some "B")
         ("Failed to cancel order: " ++ (flaky_modify_daemon (mgr0.cancel_kwargs "B")).msg))) :=
  cancel_all_per_item mgr0 (fun _ => pending_resp) flaky_modify_daemon c3_pending c3_entries
    rfl rfl 1 (by decide) "B" rfl

/-- C2: every facade operation except cancel_all_orders (the derived
get_position, get_filled_orders and get_pending_orders delegate to the
operations below) meets the propagation contract around its single
daemon call: it fails exactly when the call returns a non-zero code,
the raised error belongs to the taxonomy and embeds the daemon message,
and a zero code never raises.  For place_order and get_account_info the
success payload is assumed to carry its documented column (order_id,
trd_env). -/
theorem facade_error_propagation
    (codes : Codes) (st : Option (List SubType)) (kcode period : String) (count num : Nat)
    (start end_ : Option String) (market stock_type : String)
    (m : TradingManager) (ocode : String) (oprice oqty : Int) (side : TrdSide)
    (otype : OrderType) (pcode : Option String) (status : Option (List OrderStatus))
    (oid : Val) (acct : TrdEnv) (qcode : String) (qprice : Int)
    (r1 r2 r3 r4 r5 r6 r7 r8 r9 r10 r11 r12 r13 r14 : Resp)
    (hoid : r9.ret = 0 → r9.df.cells ≠ [] → (r9.df.iloc0_get "order_id").isSome = true)
    (henv : r13.df.columns.contains "trd_env" = true) :
    surfaces r1 (.marketData ("Failed to subscribe: " ++ r1.msg))
      (MarketData.subscribe (fun _ => r1) codes st) ∧
    surfaces r2 (.marketData ("Failed to unsubscribe: " ++ r2.msg))
      (MarketData.unsubscribe (fun _ => r2) codes st) ∧
    surfaces r3 (.marketData ("Failed to get quote: " ++ r3.msg))
      (MarketData.get_quote (fun _ => r3) codes) ∧
    surfaces r4 (.marketData ("Failed to get K-lines: " ++ r4.msg))
      (MarketData.get_klines (fun _ => r4) kcode period count start end_) ∧
    surfaces r5 (.marketData ("Failed to get current K-lines: " ++ r5.msg))
      (MarketData.get_cur_klines (fun _ => r5) codes period num) ∧
    surfaces r6 (.marketData ("Failed to get subscription: " ++ r6.msg))
      (MarketData.get_subscription r6) ∧
    surfaces r7 (.marketData ("Failed to get market snapshot: " ++ r7.msg))
      (MarketData.get_market_snapshot (fun _ => r7) codes) ∧
    surfaces r8 (.marketData ("Failed to get stock basic info: " ++ r8.msg))
      (MarketData.get_stock_basicinfo (fun _ => r8) market stock_type) ∧
    surfaces r9 (.order ("Failed to place order: " ++ r9.msg))
      (m.place_order (fun _ => r9) ocode oprice oqty side otype) ∧
    surfaces r10 (.account ("Failed to get positions: " ++ r10.msg))
      (m.get_positions (fun _ => r10) pcode) ∧
    surfaces r11 (.order ("Failed to get orders: " ++ r11.msg))
      (m.get_today_orders (fun _ => r11) status) ∧
    surfaces r12 (.order ("Failed to cancel order: " ++ r12.msg))
      (m.cancel_order (fun _ => r12) oid) ∧
    surfaces r13 (.account ("Failed to get account list: " ++ r13.msg))
      (m.get_account_info r13 acct) ∧
    surfaces r14 (.account ("Failed to get max trade qtys: " ++ r14.msg))
      (m.get_max_trd_qtys (fun _ => r14) qcode qprice) := by
  refine ⟨?_, ?_, ?_, ?_, ?_, ?_, ?_, ?_, ?_, ?_, ?_, ?_, ?_, ?_⟩
  · exact surfaces_if r1 _ _
  · exact surfaces_if r2 _ _
  · exact surfaces_if r3 _ _
  · exact surfaces_if r4 _ _
  · exact surfaces_if r5 _ _
  · exact surfaces_if r6 _ _
  · exact surfaces_if r7 _ _
  · exact surfaces_if r8 _ _
  · exact (place_order_char m (fun _ => r9) ocode oprice oqty side otype hoid).1
  · exact surfaces_if r10 _ _
  · exact surfaces_if r11 _ _
  · exact surfaces_if r12 _ _
  · exact (get_account_info_char m r13 acct henv).1
  · exact surfaces_if r14 _ _

/-- Witness for C2, at a mix of rejecting and succeeding daemon
replies. -/
theorem facade_error_propagation_witness :
    surfaces fail_resp (.marketData ("Failed to subscribe: " ++ fail_resp.msg))
      (MarketData.subscribe (fun _ => fail_resp) (.single "HK.00700") none) ∧
    surfaces ok_resp (.marketData ("Failed to unsubscribe: " ++ ok_resp.msg))
      (MarketData.unsubscribe (fun _ => ok_resp) (.single "HK.00700") none) ∧
    surfaces fail_resp (.marketData ("Failed to get quote: " ++ fail_resp.msg))
      (MarketData.get_quote (fun _ => fail_resp) (.single "HK.00700")) ∧
    surfaces ok_resp (.marketData ("Failed to get K-lines: " ++ ok_resp.msg))
      (MarketData.get_klines (fun _ => ok_resp) "HK.00700" "DAY" 30 none none) ∧
    surfaces fail_resp (.marketData ("Failed to get current K-lines: " ++ fail_resp.msg))
      (MarketData.get_cur_klines (fun _ => fail_resp) (.single "HK.00700") "DAY" 10) ∧
    surfaces ok_resp (.marketData ("Failed to get subscription: " ++ ok_resp.msg))
      (MarketData.get_subscription ok_resp) ∧
    surfaces fail_resp (.marketData ("Failed to get market snapshot: " ++ fail_resp.msg))
      (MarketData.get_market_snapshot (fun _ => fail_resp) (.single "HK.00700")) ∧
    surfaces ok_resp (.marketData ("Failed to get stock basic info: " ++ ok_resp.msg))
      (MarketData.get_stock_basicinfo (fun _ => ok_resp) "HK" "STOCK") ∧
    surfaces ok_resp (.order ("Failed to place order: " ++ ok_resp.msg))
      (mgr0.place_order (fun _ => ok_resp) "HK.00700" 500 100 .BUY .NORMAL) ∧
    surfaces fail_resp (.account ("Failed to get positions: " ++ fail_resp.msg))
      (mgr0.get_positions (fun _ => fail_resp) none) ∧
    surfaces ok_resp (.order ("Failed to get orders: " ++ ok_resp.msg))
      (mgr0.get_today_orders (fun _ => ok_resp) none) ∧
    surfaces fail_resp (.order ("Failed to cancel order: " ++ fail_resp.msg))
      (mgr0.cancel_order (fun _ => fail_resp) "OID1") ∧
    surfaces acc_list_resp (.account ("Failed to get account list: " ++ acc_list_resp.msg))
      (mgr0.get_account_info acc_list_resp .SIMULATE) ∧
    surfaces ok_resp (.account ("Failed to get max trade qtys: " ++ ok_resp.msg))
      (mgr0.get_max_trd_qtys (fun _ => ok_resp) "HK.00700" 500) :=
  facade_error_propagation (.single "HK.00700") none "HK.00700" "DAY" 30 10 none none
    "HK" "STOCK" mgr0 "HK.00700" 500 100 .BUY .NORMAL none none "OID1" .SIMULATE
    "HK.00700" 500 fail_resp ok_resp fail_resp ok_resp fail_resp ok_resp fail_resp
    ok_resp ok_resp fail_resp ok_resp fail_resp acc_list_resp ok_resp
    (by decide) (by decide)

end Futu
